import Mathlib

/-!
Shallow embedding of the HTTP route layer in `lib/app_server_lib.py`
(asciidoclive). Route handlers parse JSON request bodies, delegate to a
document-store model layer and an external text-to-HTML converter, and
produce JSON responses. External collaborators (`models_lib`, `auth_lib`,
`asciidoc_lib`, `env_lib`, flask-login) are not part of the source file;
they are modelled as parameters collected in an `Env` structure, and the
document store operations are modelled from the spec. Handlers that can
raise an uncaught Python exception (for example `len` applied to a JSON
number, or a key error on a missing field) return `Option`, with `none`
standing for the uncaught exception.
-/

/-- A JSON value, as produced by `flask.request.get_json()`. Objects are
association lists of string keys; Python dicts have unique keys, and all
operations below read the first occurrence. -/
inductive JVal where
  | jbool : Bool → JVal
  | jstr : String → JVal
  | jnum : Int → JVal
  | jarr : List JVal → JVal
  | jobj : List (String × JVal) → JVal


/-- A JSON object: a request body or a response payload. -/
abbrev JObj := List (String × JVal)

/-- Key lookup in a JSON object, first occurrence (`d[k]` / `k in d`). -/
def jlookup (obj : JObj) (key : String) : Option JVal :=
  match obj with
  | [] => none
  | (k, v) :: rest => if k = key then some v else jlookup rest key

/-- Python `d.update` with a single key: overwrite the first occurrence of
the key in place, or append the pair when the key is absent. -/
def jupdate (obj : JObj) (key : String) (v : JVal) : JObj :=
  match obj with
  | [] => [(key, v)]
  | (k, w) :: rest =>
      if k = key then (k, v) :: rest else (k, w) :: jupdate rest key v

/-- Python truthiness of a JSON value: `None` is handled at the `Option`
layer; false, empty string, zero, empty array and empty object are falsy. -/
def truthy : JVal → Bool
  | .jbool b => b
  | .jstr s => !s.isEmpty
  | .jnum n => n != 0
  | .jarr l => !l.isEmpty
  | .jobj l => !l.isEmpty

/-- Truthiness of `d.get(k, None)`: a missing key is `None`, hence falsy. -/
def truthyOpt : Option JVal → Bool
  | none => false
  | some v => truthy v

/-- Python `len` on a JSON value: defined for strings, arrays and objects;
`none` for booleans and numbers, where Python raises `TypeError`. -/
def pyLen : JVal → Option Nat
  | .jstr s => some s.length
  | .jarr l => some l.length
  | .jobj l => some l.length
  | _ => none

/-- Stock response `_SUCCESS_RESPONSE`. -/
def SUCCESS_RESPONSE : JObj := [("success", .jbool true)]

/-- Stock response `_INVALID_REQUEST_RESPONSE`. -/
def INVALID_REQUEST_RESPONSE : JObj :=
  [("success", .jbool false), ("error_message", .jstr "Invalid request")]

/-- Stock response `_NOT_AUTHENTICATED_RESPONSE`. -/
def NOT_AUTHENTICATED_RESPONSE : JObj :=
  [("success", .jbool false), ("error_message", .jstr "Not authenticated")]

/-- Stock response `_INVALID_DOCUMENT_ID_RESPONSE`. -/
def INVALID_DOCUMENT_ID_RESPONSE : JObj :=
  [("success", .jbool false), ("error_message", .jstr "Invalid document ID")]

/-- A site user, as returned by `auth_lib.FindOrCreateUser`; `user_id` is
the site user ID placed in the `Auth` success response. -/
structure User where
  user_id : JVal


/-- Modelled from the spec: the content fields of a `UserDocument` that
`FromJson` parses from a request body (title, source text, visibility);
`models_lib` is not part of the source file. -/
structure DocContent where
  title : JVal
  text : JVal
  visibility : JVal


/-- Modelled from the spec: a persisted `UserDocument` with an identifier,
an owner reference and content fields; `models_lib` is not part of the
source file. -/
structure Document where
  document_id : String
  owner : User
  content : DocContent


/-- Modelled from the spec: the document store, a finite collection of
documents keyed by `document_id` (a document identifier is unique across
the store). -/
abbrev Store := List Document

/-- Modelled from the spec: `models_lib.UserDocument.Get`, lookup of a
document by its identifier. -/
def storeGet (store : Store) (document_id : String) : Option Document :=
  store.find? (fun d => d.document_id == document_id)

/-- Modelled from the spec: `document.save()` on an existing document,
a full-field overwrite of the stored document with the same identifier. -/
def storeSave (store : Store) (doc : Document) : Store :=
  store.map (fun d => if d.document_id == doc.document_id then doc else d)

/-- Modelled from the spec: `document.delete()`, explicit removal of the
document with the given identifier. -/
def storeDelete (store : Store) (document_id : String) : Store :=
  store.filter (fun d => d.document_id != document_id)

/-- The external collaborators of the route layer, not part of the source
file: `env_lib.MAX_SOURCE_TEXT_SIZE`, `auth_lib.ACCOUNT_PROVIDERS` and
token verification, `auth_lib.FindOrCreateUser`,
`asciidoc_lib.GetAsciiDocResult` (exit code, stdout, stderr), and the
model-layer permission predicates and JSON conversions of `models_lib`. -/
structure Env where
  maxSourceTextSize : Nat
  accountProviders : List String
  isTokenValid : JVal → JVal → JVal → Bool
  findOrCreateUser : List (JVal × JVal × JVal) → User
  getAsciiDocResult : JVal → Int × String × String
  isReadableByUser : Document → User → Bool
  isWritableByUser : Document → User → Bool
  fromJson : DocContent → JObj → DocContent
  newContent : JObj → DocContent
  toJson : Document → JObj
  validates : DocContent → Bool

/-- Handler `AsciiDocToHtml` (`POST /api/v1/asciidoc-to-html`), with the
`_RequireText` decorator inlined: reject when `text` is absent or longer
than the configured maximum, crash (Python `TypeError`) when `len` is not
defined on the value, otherwise report the external renderer result. -/
def AsciiDocToHtml (env : Env) (request_data : JObj) : Option JObj :=
  match jlookup request_data "text" with
  | none => some INVALID_REQUEST_RESPONSE
  | some v =>
      match pyLen v with
      | none => none
      | some n =>
          if n > env.maxSourceTextSize then some INVALID_REQUEST_RESPONSE
          else
            match env.getAsciiDocResult v with
            | (return_code, stdout_output, stderr_output) =>
                some [("success", .jbool (return_code == 0)),
                      ("html", .jstr stdout_output),
                      ("error_message", .jstr stderr_output)]

/-- A JSON value Python can hash, hence probe for dict membership: anything
but an array (Python list) or an object (Python dict). -/
def hashable : JVal → Bool
  | .jarr _ => false
  | .jobj _ => false
  | _ => true

/-- Membership test `account_data[..] in auth_lib.ACCOUNT_PROVIDERS`: the
dict keys are provider-type strings, so a hashable non-string value
(boolean, number) is simply not a member, while an unhashable value (array
or object) makes Python raise `TypeError`, modelled as `none`. -/
def providerKnown (env : Env) : JVal → Option Bool
  | .jstr t => some (env.accountProviders.contains t)
  | .jbool _ => some false
  | .jnum _ => some false
  | .jarr _ => none
  | .jobj _ => none

/-- The `for account_data in request_data[..]` loop of the `Auth` handler:
validate each account assertion in order, accumulating
`(account_provider_type, user_id, data)` triples; on reaching the end of
the list, link or create the user and log it in. A non-object element
(Python `AttributeError` on `.get`), a truthy unhashable provider type
reaching the dict membership test (Python `TypeError`), or a missing
`data` key (Python `KeyError`) is an uncaught exception, modelled as
`none`. The three truthiness checks and the membership test mirror the
short-circuit order of the `or` chain in the source. -/
def authAccountsLoop (env : Env) (session : Option User)
    (accounts : List (JVal × JVal × JVal)) :
    List JVal → Option (JObj × Option User)
  | [] =>
      match env.findOrCreateUser accounts with
      | user => some ([("success", .jbool true), ("user_id", user.user_id)],
                      some user)
  | account :: rest =>
      match account with
      | .jobj account_data =>
          (match jlookup account_data "account_provider_type",
                 jlookup account_data "user_id",
                 jlookup account_data "auth_token" with
           | some ptype, some uid, some tok =>
               if !truthy ptype || !truthy uid || !truthy tok then
                 some (INVALID_REQUEST_RESPONSE, session)
               else
                 match providerKnown env ptype with
                 | none => none
                 | some known =>
                     if !known then
                       some (INVALID_REQUEST_RESPONSE, session)
                     else if !env.isTokenValid ptype uid tok then
                       some ([("success", .jbool false),
                              ("error_message", .jstr "Invalid token")],
                             session)
                     else
                       match jlookup account_data "data" with
                       | none => none
                       | some d =>
                           authAccountsLoop env session
                             (accounts ++ [(ptype, uid, d)]) rest
           | _, _, _ => some (INVALID_REQUEST_RESPONSE, session))
      | _ => none

/-- Handler `Auth` (`POST /api/v1/auth`): reject when `accounts` is absent,
not a list, or empty, otherwise validate every account assertion via
`authAccountsLoop`. Returns the response and the resulting session. -/
def Auth (env : Env) (session : Option User) (request_data : JObj) :
    Option (JObj × Option User) :=
  match jlookup request_data "accounts" with
  | some (.jarr accountList) =>
      if accountList.isEmpty then some (INVALID_REQUEST_RESPONSE, session)
      else authAccountsLoop env session [] accountList
  | some _ => some (INVALID_REQUEST_RESPONSE, session)
  | none => some (INVALID_REQUEST_RESPONSE, session)

/-- Handler `Logout` (`POST /api/v1/logout`), with the `_RequireAuth`
decorator inlined. Returns the response and the resulting session. -/
def Logout (session : Option User) : JObj × Option User :=
  match session with
  | none => (NOT_AUTHENTICATED_RESPONSE, none)
  | some _ => (SUCCESS_RESPONSE, none)

/-- One outcome of a `document.save()` attempt inside the `CreateDocument`
retry loop: success, `mongoengine.errors.NotUniqueError`, or
`mongoengine.errors.ValidationError`. -/
inductive SaveOutcome where
  | ok
  | notUnique
  | validationError

/-- Result of the `while True` identifier-assignment loop of
`CreateDocument` on a finite supply of generated identifiers and store
outcomes; `fuelOut` stands for a run that exhausts the finite supply
without terminating. -/
inductive CreateLoopResult where
  | assigned (document_id : String)
  | invalid
  | fuelOut

/-- The `while True` loop of `CreateDocument`: each iteration assigns the
next `NewDocumentId` and attempts a save with the next store outcome;
`NotUniqueError` retries silently, `ValidationError` aborts, success
breaks with the assigned identifier. -/
def createLoop : List String → List SaveOutcome → CreateLoopResult
  | document_id :: ids, outcome :: outs =>
      match outcome with
      | .ok => .assigned document_id
      | .notUnique => createLoop ids outs
      | .validationError => .invalid
  | _, _ => .fuelOut

/-- Handler `CreateDocument` (`PUT /api/v1/documents`), with `_RequireAuth`
and then `_RequireText` inlined in decorator order. `ids` is the supply of
`NewDocumentId` results and `outcomes` the store outcome of each save
attempt; on success the new document is added to the store. -/
def CreateDocument (env : Env) (session : Option User) (ids : List String)
    (outcomes : List SaveOutcome) (store : Store) (request_data : JObj) :
    Option (JObj × Store) :=
  match session with
  | none => some (NOT_AUTHENTICATED_RESPONSE, store)
  | some user =>
      match jlookup request_data "text" with
      | none => some (INVALID_REQUEST_RESPONSE, store)
      | some v =>
          match pyLen v with
          | none => none
          | some n =>
              if n > env.maxSourceTextSize then
                some (INVALID_REQUEST_RESPONSE, store)
              else
                match createLoop ids outcomes with
                | .assigned document_id =>
                    some ([("success", .jbool true),
                           ("document_id", .jstr document_id)],
                          store ++ [{ document_id := document_id,
                                      owner := user,
                                      content := env.newContent request_data }])
                | .invalid => some (INVALID_REQUEST_RESPONSE, store)
                | .fuelOut => none

/-- Handler `GetDocument` (`POST /api/v1/documents/<document_id>`), with
`_RequireAuth` inlined: nonexistent document, then readability check, then
the document serialized by `toJson` with `success` set to true. -/
def GetDocument (env : Env) (session : Option User) (store : Store)
    (document_id : String) : JObj :=
  match session with
  | none => NOT_AUTHENTICATED_RESPONSE
  | some user =>
      match storeGet store document_id with
      | none => INVALID_DOCUMENT_ID_RESPONSE
      | some document =>
          if !env.isReadableByUser document user then
            NOT_AUTHENTICATED_RESPONSE
          else jupdate (env.toJson document) "success" (.jbool true)

/-- Handler `SaveDocument` (`POST /api/v1/documents/<document_id>`), with
`_RequireAuth` and then `_RequireText` inlined in decorator order:
nonexistent document, then writability check, then `FromJson` and a save
whose `ValidationError` becomes the invalid-request response. Returns the
response and the resulting store. -/
def SaveDocument (env : Env) (session : Option User) (store : Store)
    (document_id : String) (request_data : JObj) : Option (JObj × Store) :=
  match session with
  | none => some (NOT_AUTHENTICATED_RESPONSE, store)
  | some user =>
      match jlookup request_data "text" with
      | none => some (INVALID_REQUEST_RESPONSE, store)
      | some v =>
          match pyLen v with
          | none => none
          | some n =>
              if n > env.maxSourceTextSize then
                some (INVALID_REQUEST_RESPONSE, store)
              else
                match storeGet store document_id with
                | none => some (INVALID_DOCUMENT_ID_RESPONSE, store)
                | some document =>
                    if !env.isWritableByUser document user then
                      some (NOT_AUTHENTICATED_RESPONSE, store)
                    else
                      match { document with
                              content :=
                                env.fromJson document.content request_data }
                      with
                      | newDocument =>
                          if env.validates newDocument.content then
                            some (SUCCESS_RESPONSE, storeSave store newDocument)
                          else some (INVALID_REQUEST_RESPONSE, store)

/-- Handler `DeleteDocument` (`DELETE /api/v1/documents/<document_id>`),
with `_RequireAuth` inlined: nonexistent document, then writability check,
then deletion. Returns the response and the resulting store. -/
def DeleteDocument (env : Env) (session : Option User) (store : Store)
    (document_id : String) : JObj × Store :=
  match session with
  | none => (NOT_AUTHENTICATED_RESPONSE, store)
  | some user =>
      match storeGet store document_id with
      | none => (INVALID_DOCUMENT_ID_RESPONSE, store)
      | some document =>
          if !env.isWritableByUser document user then
            (NOT_AUTHENTICATED_RESPONSE, store)
          else (SUCCESS_RESPONSE, storeDelete store document_id)

/-- A well-shaped JSON API response: it carries a boolean `success` field,
and when that field is false it also carries a string `error_message`. -/
def goodResponse (r : JObj) : Prop :=
  (∃ b, jlookup r "success" = some (.jbool b)) ∧
  (jlookup r "success" = some (.jbool false) →
    ∃ s, jlookup r "error_message" = some (.jstr s))

/-- An account assertion that the `Auth` loop accepts: an object whose
`account_provider_type`, `user_id` and `auth_token` entries are present and
truthy, whose provider type is a known provider, and whose token passes
provider verification. -/
def accountOk (env : Env) (a : JVal) : Bool :=
  match a with
  | .jobj account_data =>
      match jlookup account_data "account_provider_type",
            jlookup account_data "user_id",
            jlookup account_data "auth_token" with
      | some ptype, some uid, some tok =>
          truthy ptype && truthy uid && truthy tok &&
          (providerKnown env ptype).getD false &&
          env.isTokenValid ptype uid tok
      | _, _, _ => false
  | _ => false

/-- The `(account_provider_type, user_id, data)` triple the `Auth` loop
appends for an accepted account assertion (the defaults are never read on
accepted assertions). -/
def accountTriple (a : JVal) : JVal × JVal × JVal :=
  match a with
  | .jobj account_data =>
      ((jlookup account_data "account_provider_type").getD (.jstr ""),
       (jlookup account_data "user_id").getD (.jstr ""),
       (jlookup account_data "data").getD (.jstr ""))
  | _ => (.jstr "", .jstr "", .jstr "")

/-- An account assertion on which the `Auth` loop raises no uncaught
exception: a JSON object with a `data` entry, whose provider type is
hashable whenever the membership test runs (that is, whenever the provider
type, user id and token are all present and truthy). -/
def accountWF (a : JVal) : Prop :=
  ∃ account_data, a = JVal.jobj account_data ∧
    (jlookup account_data "data").isSome = true ∧
    (∀ ptype uid tok,
       jlookup account_data "account_provider_type" = some ptype →
       jlookup account_data "user_id" = some uid →
       jlookup account_data "auth_token" = some tok →
       truthy ptype = true → truthy uid = true → truthy tok = true →
       hashable ptype = true)

/-- Concrete document content for witnesses. -/
def contentW : DocContent :=
  { title := .jstr "t", text := .jstr "x", visibility := .jstr "private" }

/-- Concrete user for witnesses; readable/writable under `envW`. -/
def userW : User := { user_id := .jnum 7 }

/-- Concrete user for witnesses; neither readable nor writable under
`envW`. -/
def userW2 : User := { user_id := .jnum 8 }

/-- Concrete document for witnesses, owned by `userW`. -/
def docW : Document :=
  { document_id := "d1", owner := userW, content := contentW }

/-- Concrete one-document store for witnesses. -/
def storeW : Store := [docW]

/-- Concrete environment for witnesses: maximum text size 8, one account
provider, tokens valid exactly when they are the string `tok`, permissions
held exactly by the user with site ID 7, and a fixed renderer result with
exit status 1. -/
def envW : Env :=
  { maxSourceTextSize := 8
    accountProviders := ["google"]
    isTokenValid := fun _ _ tok =>
      match tok with
      | .jstr s => s == "tok"
      | _ => false
    findOrCreateUser := fun accounts =>
      { user_id := .jnum (Int.ofNat accounts.length) }
    getAsciiDocResult := fun _ => (1, "HTML", "ERR")
    isReadableByUser := fun _ u =>
      match u.user_id with
      | .jnum k => k == 7
      | _ => false
    isWritableByUser := fun _ u =>
      match u.user_id with
      | .jnum k => k == 7
      | _ => false
    fromJson := fun c rd => { c with text := (jlookup rd "text").getD c.text }
    newContent := fun rd =>
      { title := .jstr "", text := (jlookup rd "text").getD (.jstr ""),
        visibility := .jstr "private" }
    toJson := fun d => [("document_id", .jstr d.document_id)]
    validates := fun c =>
      match c.text with
      | .jstr _ => true
      | _ => false }

/-- Concrete well-formed, fully valid account assertion for witnesses. -/
def acctW : JVal :=
  .jobj [("account_provider_type", .jstr "google"),
         ("user_id", .jstr "u1"),
         ("auth_token", .jstr "tok"),
         ("data", .jobj [])]

theorem jlookup_jupdate_self (obj : JObj) (key : String) (v : JVal) :
    jlookup (jupdate obj key v) key = some v := by
  induction obj with
  | nil => simp [jupdate, jlookup]
  | cons p rest ih =>
      obtain ⟨k, w⟩ := p
      by_cases h : k = key
      · simp [jupdate, jlookup, h]
      · simp [jupdate, jlookup, h, ih]

theorem goodResponse_SUCCESS : goodResponse SUCCESS_RESPONSE := by
  refine ⟨⟨true, rfl⟩, ?_⟩
  intro h
  simp [SUCCESS_RESPONSE, jlookup] at h

theorem goodResponse_INVALID_REQUEST : goodResponse INVALID_REQUEST_RESPONSE :=
  ⟨⟨false, rfl⟩, fun _ => ⟨"Invalid request", rfl⟩⟩

theorem goodResponse_NOT_AUTHENTICATED :
    goodResponse NOT_AUTHENTICATED_RESPONSE :=
  ⟨⟨false, rfl⟩, fun _ => ⟨"Not authenticated", rfl⟩⟩

theorem goodResponse_INVALID_DOCUMENT_ID :
    goodResponse INVALID_DOCUMENT_ID_RESPONSE :=
  ⟨⟨false, rfl⟩, fun _ => ⟨"Invalid document ID", rfl⟩⟩

theorem goodResponse_invalid_token :
    goodResponse [("success", .jbool false),
                  ("error_message", .jstr "Invalid token")] :=
  ⟨⟨false, rfl⟩, fun _ => ⟨"Invalid token", rfl⟩⟩

theorem goodResponse_auth_success (v : JVal) :
    goodResponse [("success", .jbool true), ("user_id", v)] := by
  refine ⟨⟨true, rfl⟩, ?_⟩
  intro h
  simp [jlookup] at h

theorem goodResponse_create_success (document_id : String) :
    goodResponse [("success", .jbool true),
                  ("document_id", .jstr document_id)] := by
  refine ⟨⟨true, rfl⟩, ?_⟩
  intro h
  simp [jlookup] at h

theorem goodResponse_render (b : Bool) (h e : String) :
    goodResponse [("success", .jbool b), ("html", .jstr h),
                  ("error_message", .jstr e)] := by
  refine ⟨⟨b, rfl⟩, ?_⟩
  intro _
  exact ⟨e, rfl⟩

theorem goodResponse_get_success (obj : JObj) :
    goodResponse (jupdate obj "success" (.jbool true)) := by
  refine ⟨⟨true, jlookup_jupdate_self obj "success" (.jbool true)⟩, ?_⟩
  intro h
  rw [jlookup_jupdate_self] at h
  simp at h

/-- C5: every authenticated-gated handler (Logout, CreateDocument,
GetDocument, SaveDocument, DeleteDocument) invoked while the current user
is not authenticated returns the fixed not-authenticated response without
invoking the wrapped operation (the store and session are unchanged); and
Logout leaves the session unauthenticated, so any such request made after
a logout is in that situation. -/
theorem claim_C5_auth_gate (env : Env) (ids : List String)
    (outcomes : List SaveOutcome) (store : Store) (request_data : JObj)
    (document_id : String) (u : User) :
    Logout none = (NOT_AUTHENTICATED_RESPONSE, none) ∧
    CreateDocument env none ids outcomes store request_data =
      some (NOT_AUTHENTICATED_RESPONSE, store) ∧
    GetDocument env none store document_id = NOT_AUTHENTICATED_RESPONSE ∧
    SaveDocument env none store document_id request_data =
      some (NOT_AUTHENTICATED_RESPONSE, store) ∧
    DeleteDocument env none store document_id =
      (NOT_AUTHENTICATED_RESPONSE, store) ∧
    (Logout (some u)).2 = none :=
  ⟨rfl, rfl, rfl, rfl, rfl, rfl⟩

/-- C6: for every text accepted by the `_RequireText` gate, the
`AsciiDocToHtml` response reports the external renderer result verbatim:
`success` is true exactly when the exit status is 0, `html` is the captured
standard output, and `error_message` is the captured standard error. -/
theorem claim_C6_renderer_verbatim (env : Env) (request_data : JObj)
    (v : JVal) (n : Nat) (rc : Int) (out err : String)
    (htext : jlookup request_data "text" = some v)
    (hlen : pyLen v = some n)
    (hsize : n ≤ env.maxSourceTextSize)
    (hres : env.getAsciiDocResult v = (rc, out, err)) :
    AsciiDocToHtml env request_data =
      some [("success", .jbool (rc == 0)), ("html", .jstr out),
            ("error_message", .jstr err)] := by
  have hnot : ¬ n > env.maxSourceTextSize := by omega
  simp [AsciiDocToHtml, htext, hlen, hnot, hres]

/-- C6 witness at a concrete request and environment. -/
theorem claim_C6_witness :
    AsciiDocToHtml envW [("text", .jstr "hi")] =
      some [("success", .jbool false), ("html", .jstr "HTML"),
            ("error_message", .jstr "ERR")] :=
  claim_C6_renderer_verbatim envW [("text", .jstr "hi")] (.jstr "hi") 2 1
    "HTML" "ERR" rfl rfl (by decide) rfl

/-- C3 counterexample: an unauthenticated request to `CreateDocument` with
a text of length 9 (above the maximum 8 of `envW`) yields the fixed
not-authenticated response, not the fixed invalid-request response, because
the `_RequireAuth` decorator runs before `_RequireText`. -/
theorem claim_C3_counterexample :
    pyLen (.jstr "123456789") = some 9 ∧
    9 > envW.maxSourceTextSize ∧
    CreateDocument envW none [] [] [] [("text", .jstr "123456789")] =
      some (NOT_AUTHENTICATED_RESPONSE, []) ∧
    NOT_AUTHENTICATED_RESPONSE ≠ INVALID_REQUEST_RESPONSE := by
  refine ⟨rfl, by decide, rfl, ?_⟩
  intro h
  have h2 := congrArg (fun r => jlookup r "error_message") h
  simp [NOT_AUTHENTICATED_RESPONSE, INVALID_REQUEST_RESPONSE, jlookup] at h2

/-- C3 amended: for every request whose `text` value is longer than the
configured maximum, `AsciiDocToHtml` returns the fixed invalid-request
response, and so do `CreateDocument` and `SaveDocument` once the request
passes their authentication gate; the wrapped operation is not invoked
(the store is unchanged and the conclusion does not depend on the renderer
or the store outcomes). -/
theorem claim_C3_oversized_text_amended (env : Env) (request_data : JObj)
    (v : JVal) (n : Nat) (u : User) (ids : List String)
    (outcomes : List SaveOutcome) (store : Store) (document_id : String)
    (htext : jlookup request_data "text" = some v)
    (hlen : pyLen v = some n)
    (hsize : n > env.maxSourceTextSize) :
    AsciiDocToHtml env request_data = some INVALID_REQUEST_RESPONSE ∧
    CreateDocument env (some u) ids outcomes store request_data =
      some (INVALID_REQUEST_RESPONSE, store) ∧
    SaveDocument env (some u) store document_id request_data =
      some (INVALID_REQUEST_RESPONSE, store) := by
  refine ⟨?_, ?_, ?_⟩
  · simp [AsciiDocToHtml, htext, hlen, hsize]
  · simp [CreateDocument, htext, hlen, hsize]
  · simp [SaveDocument, htext, hlen, hsize]

/-- C3 amended witness at a concrete oversized request. -/
theorem claim_C3_witness :
    AsciiDocToHtml envW [("text", .jstr "123456789")] =
      some INVALID_REQUEST_RESPONSE ∧
    SaveDocument envW (some userW) storeW "d1" [("text", .jstr "123456789")] =
      some (INVALID_REQUEST_RESPONSE, storeW) :=
  ⟨(claim_C3_oversized_text_amended envW [("text", .jstr "123456789")]
      (.jstr "123456789") 9 userW [] [] storeW "d1" rfl rfl (by decide)).1,
   (claim_C3_oversized_text_amended envW [("text", .jstr "123456789")]
      (.jstr "123456789") 9 userW [] [] storeW "d1" rfl rfl (by decide)).2.2⟩

/-- C7 counterexample: an authenticated `SaveDocument` request without a
`text` parameter and with a document identifier absent from the store
yields the fixed invalid-request response, not the fixed invalid document
ID response, because the `_RequireText` decorator runs before the store
lookup. -/
theorem claim_C7_counterexample :
    storeGet storeW "zz" = none ∧
    SaveDocument envW (some userW) storeW "zz" [] =
      some (INVALID_REQUEST_RESPONSE, storeW) ∧
    INVALID_REQUEST_RESPONSE ≠ INVALID_DOCUMENT_ID_RESPONSE := by
  refine ⟨rfl, rfl, ?_⟩
  intro h
  have h2 := congrArg (fun r => jlookup r "error_message") h
  simp [INVALID_REQUEST_RESPONSE, INVALID_DOCUMENT_ID_RESPONSE, jlookup] at h2

/-- C7 amended: for every authenticated request naming a document
identifier for which the store lookup returns no document, `GetDocument`
and `DeleteDocument` return the fixed invalid document ID response, and so
does `SaveDocument` for every such request that passes the `_RequireText`
gate. -/
theorem claim_C7_invalid_document_id_amended (env : Env) (u : User)
    (store : Store) (document_id : String) (request_data : JObj)
    (hget : storeGet store document_id = none) :
    GetDocument env (some u) store document_id =
      INVALID_DOCUMENT_ID_RESPONSE ∧
    DeleteDocument env (some u) store document_id =
      (INVALID_DOCUMENT_ID_RESPONSE, store) ∧
    (∀ v n, jlookup request_data "text" = some v → pyLen v = some n →
       n ≤ env.maxSourceTextSize →
       SaveDocument env (some u) store document_id request_data =
         some (INVALID_DOCUMENT_ID_RESPONSE, store)) := by
  refine ⟨?_, ?_, ?_⟩
  · simp [GetDocument, hget]
  · simp [DeleteDocument, hget]
  · intro v n htext hlen hsize
    have hnot : ¬ n > env.maxSourceTextSize := by omega
    simp [SaveDocument, htext, hlen, hnot, hget]

/-- C7 amended witness at a concrete nonexistent identifier. -/
theorem claim_C7_witness :
    GetDocument envW (some userW) storeW "zz" =
      INVALID_DOCUMENT_ID_RESPONSE ∧
    SaveDocument envW (some userW) storeW "zz" [("text", .jstr "hi")] =
      some (INVALID_DOCUMENT_ID_RESPONSE, storeW) :=
  ⟨(claim_C7_invalid_document_id_amended envW userW storeW "zz"
      [("text", .jstr "hi")] rfl).1,
   (claim_C7_invalid_document_id_amended envW userW storeW "zz"
      [("text", .jstr "hi")] rfl).2.2 (.jstr "hi") 2 rfl rfl (by decide)⟩

/-- C9 counterexample: for an authenticated requester lacking all
permissions, `SaveDocument` on a nonexistent document identifier with an
oversized `text` yields the fixed invalid-request response, not the fixed
invalid document ID response, because the `_RequireText` decorator runs
before the store lookup. -/
theorem claim_C9_counterexample :
    storeGet storeW "yy" = none ∧
    SaveDocument envW (some userW2) storeW "yy" [("text", .jstr "123456789")] =
      some (INVALID_REQUEST_RESPONSE, storeW) ∧
    INVALID_REQUEST_RESPONSE ≠ INVALID_DOCUMENT_ID_RESPONSE := by
  refine ⟨rfl, rfl, ?_⟩
  intro h
  have h2 := congrArg (fun r => jlookup r "error_message") h
  simp [INVALID_REQUEST_RESPONSE, INVALID_DOCUMENT_ID_RESPONSE, jlookup] at h2

/-- C9 amended: in `GetDocument`, `SaveDocument` and `DeleteDocument` the
existence check precedes the permission check: for every authenticated
request (passing the `_RequireText` gate in the case of `SaveDocument`), a
nonexistent document identifier yields the invalid document ID response
regardless of the requester, while an existing document the requester
lacks permission for yields the not-authenticated response — so any
authenticated user issuing such requests can distinguish existing from
nonexistent identifiers even without read permission. -/
theorem claim_C9_existence_before_permission_amended (env : Env) (u : User)
    (store : Store) (document_id : String) (request_data : JObj)
    (doc : Document) :
    (storeGet store document_id = none →
       GetDocument env (some u) store document_id =
         INVALID_DOCUMENT_ID_RESPONSE ∧
       DeleteDocument env (some u) store document_id =
         (INVALID_DOCUMENT_ID_RESPONSE, store) ∧
       (∀ v n, jlookup request_data "text" = some v → pyLen v = some n →
          n ≤ env.maxSourceTextSize →
          SaveDocument env (some u) store document_id request_data =
            some (INVALID_DOCUMENT_ID_RESPONSE, store))) ∧
    (storeGet store document_id = some doc →
       (env.isReadableByUser doc u = false →
          GetDocument env (some u) store document_id =
            NOT_AUTHENTICATED_RESPONSE) ∧
       (env.isWritableByUser doc u = false →
          DeleteDocument env (some u) store document_id =
            (NOT_AUTHENTICATED_RESPONSE, store) ∧
          (∀ v n, jlookup request_data "text" = some v → pyLen v = some n →
             n ≤ env.maxSourceTextSize →
             SaveDocument env (some u) store document_id request_data =
               some (NOT_AUTHENTICATED_RESPONSE, store)))) := by
  constructor
  · intro hget
    refine ⟨by simp [GetDocument, hget], by simp [DeleteDocument, hget], ?_⟩
    intro v n htext hlen hsize
    have hnot : ¬ n > env.maxSourceTextSize := by omega
    simp [SaveDocument, htext, hlen, hnot, hget]
  · intro hget
    constructor
    · intro hread
      simp [GetDocument, hget, hread]
    · intro hwrite
      refine ⟨by simp [DeleteDocument, hget, hwrite], ?_⟩
      intro v n htext hlen hsize
      have hnot : ¬ n > env.maxSourceTextSize := by omega
      simp [SaveDocument, htext, hlen, hnot, hget, hwrite]

/-- C9 amended witness: the same unprivileged requester observes invalid
document ID on a nonexistent identifier and not-authenticated on an
existing document it cannot read or write. -/
theorem claim_C9_witness :
    GetDocument envW (some userW2) storeW "yy" =
      INVALID_DOCUMENT_ID_RESPONSE ∧
    GetDocument envW (some userW2) storeW "d1" =
      NOT_AUTHENTICATED_RESPONSE ∧
    SaveDocument envW (some userW2) storeW "d1" [("text", .jstr "hi")] =
      some (NOT_AUTHENTICATED_RESPONSE, storeW) :=
  ⟨((claim_C9_existence_before_permission_amended envW userW2 storeW "yy"
      [("text", .jstr "hi")] docW).1 rfl).1,
   ((claim_C9_existence_before_permission_amended envW userW2 storeW "d1"
      [("text", .jstr "hi")] docW).2 rfl).1 (by decide),
   (((claim_C9_existence_before_permission_amended envW userW2 storeW "d1"
      [("text", .jstr "hi")] docW).2 rfl).2 (by decide)).2 (.jstr "hi") 2
     rfl rfl (by decide)⟩

/-- C2: for every authenticated request naming an existing document,
`GetDocument` refuses (with the fixed not-authenticated response) whenever
`IsReadableByUser` does not hold for the current user, and `SaveDocument`
and `DeleteDocument` leave the store unchanged and return a failure
response whenever `IsWritableByUser` does not hold; hence a user for whom
neither predicate holds can neither read nor modify the document through
these handlers. -/
theorem claim_C2_permission_gates (env : Env) (u : User) (store : Store)
    (document_id : String) (request_data : JObj) (doc : Document)
    (hget : storeGet store document_id = some doc) :
    (env.isReadableByUser doc u = false →
       GetDocument env (some u) store document_id =
         NOT_AUTHENTICATED_RESPONSE) ∧
    (env.isWritableByUser doc u = false →
       (∀ v, jlookup request_data "text" = some v → (pyLen v).isSome = true) →
       ∃ r, SaveDocument env (some u) store document_id request_data =
              some (r, store) ∧
            jlookup r "success" = some (.jbool false)) ∧
    (env.isWritableByUser doc u = false →
       DeleteDocument env (some u) store document_id =
         (NOT_AUTHENTICATED_RESPONSE, store)) := by
  refine ⟨?_, ?_, ?_⟩
  · intro hread
    simp [GetDocument, hget, hread]
  · intro hwrite hsizeable
    rcases htext : jlookup request_data "text" with _ | v
    · exact ⟨INVALID_REQUEST_RESPONSE, by simp [SaveDocument, htext], rfl⟩
    · have hv := hsizeable v htext
      rcases hlen : pyLen v with _ | n
      · rw [hlen] at hv
        simp at hv
      · by_cases hgt : n > env.maxSourceTextSize
        · exact ⟨INVALID_REQUEST_RESPONSE,
            by simp [SaveDocument, htext, hlen, hgt], rfl⟩
        · exact ⟨NOT_AUTHENTICATED_RESPONSE,
            by simp [SaveDocument, htext, hlen, hgt, hget, hwrite], rfl⟩
  · intro hwrite
    simp [DeleteDocument, hget, hwrite]

/-- C2 witness: the concrete user 8 holds no permission on the document of
user 7 and is refused by all three handlers with the store unchanged. -/
theorem claim_C2_witness :
    GetDocument envW (some userW2) storeW "d1" =
      NOT_AUTHENTICATED_RESPONSE ∧
    DeleteDocument envW (some userW2) storeW "d1" =
      (NOT_AUTHENTICATED_RESPONSE, storeW) ∧
    ∃ r, SaveDocument envW (some userW2) storeW "d1" [("text", .jstr "hi")] =
           some (r, storeW) ∧
         jlookup r "success" = some (.jbool false) :=
  ⟨(claim_C2_permission_gates envW userW2 storeW "d1" [("text", .jstr "hi")]
      docW rfl).1 (by decide),
   (claim_C2_permission_gates envW userW2 storeW "d1" [("text", .jstr "hi")]
      docW rfl).2.2 (by decide),
   (claim_C2_permission_gates envW userW2 storeW "d1" [("text", .jstr "hi")]
      docW rfl).2.1 (by decide)
     (by intro v hv
         rw [show jlookup [("text", JVal.jstr "hi")] "text" =
               some (JVal.jstr "hi") from rfl] at hv
         cases hv
         rfl)⟩

/-- C10: whenever `SaveDocument` or `DeleteDocument` completes with a
failure response (one whose `success` field is false), the resulting store
equals the initial store; no document is modified or deleted on any error
path of these handlers. -/
theorem claim_C10_store_unchanged_on_failure (env : Env)
    (session : Option User) (store : Store) (document_id : String)
    (request_data : JObj) :
    (∀ r st, SaveDocument env session store document_id request_data =
        some (r, st) →
      jlookup r "success" = some (.jbool false) → st = store) ∧
    (∀ r st, DeleteDocument env session store document_id = (r, st) →
      jlookup r "success" = some (.jbool false) → st = store) := by
  constructor
  · intro r st h hfail
    unfold SaveDocument at h
    split at h
    · cases h
      rfl
    · split at h
      · cases h
        rfl
      · split at h
        · cases h
        · split at h
          · cases h
            rfl
          · split at h
            · cases h
              rfl
            · split at h
              · cases h
                rfl
              · simp only [] at h
                split at h
                · cases h
                  simp [SUCCESS_RESPONSE, jlookup] at hfail
                · cases h
                  rfl
  · intro r st h hfail
    unfold DeleteDocument at h
    split at h
    · cases h
      rfl
    · split at h
      · cases h
        rfl
      · split at h
        · cases h
          rfl
        · cases h
          simp [SUCCESS_RESPONSE, jlookup] at hfail

/-- C10 witness: a missing-text save failure and a permission-denied
delete failure both leave the concrete store unchanged. -/
theorem claim_C10_witness :
    SaveDocument envW (some userW) storeW "zz" [] =
      some (INVALID_REQUEST_RESPONSE, storeW) ∧
    DeleteDocument envW (some userW2) storeW "d1" =
      (NOT_AUTHENTICATED_RESPONSE, storeW) ∧
    storeW = storeW ∧ storeW = storeW :=
  ⟨rfl, rfl,
   (claim_C10_store_unchanged_on_failure envW (some userW) storeW "zz"
      []).1 INVALID_REQUEST_RESPONSE storeW rfl rfl,
   (claim_C10_store_unchanged_on_failure envW (some userW2) storeW "d1"
      []).2 NOT_AUTHENTICATED_RESPONSE storeW rfl rfl⟩

theorem createLoop_ok (post : List SaveOutcome) :
    ∀ (pre : List SaveOutcome) (idsPre idsPost : List String)
      (assignedId : String),
      (∀ x ∈ pre, x = SaveOutcome.notUnique) →
      pre.length = idsPre.length →
      createLoop (idsPre ++ assignedId :: idsPost)
        (pre ++ SaveOutcome.ok :: post) = .assigned assignedId := by
  intro pre
  induction pre with
  | nil =>
      intro idsPre idsPost assignedId _ hlen
      have : idsPre = [] := by
        cases idsPre with
        | nil => rfl
        | cons a l => simp at hlen
      subst this
      simp [createLoop]
  | cons x pre' ih =>
      intro idsPre idsPost assignedId hpre hlen
      have hx : x = SaveOutcome.notUnique := hpre x (by simp)
      subst hx
      cases idsPre with
      | nil => simp at hlen
      | cons i idsPre' =>
          simp only [List.cons_append, createLoop]
          exact ih idsPre' idsPost assignedId
            (fun y hy => hpre y (by simp [hy]))
            (by simpa using hlen)

theorem createLoop_validation (post : List SaveOutcome) :
    ∀ (pre : List SaveOutcome) (idsPre idsPost : List String)
      (assignedId : String),
      (∀ x ∈ pre, x = SaveOutcome.notUnique) →
      pre.length = idsPre.length →
      createLoop (idsPre ++ assignedId :: idsPost)
        (pre ++ SaveOutcome.validationError :: post) = .invalid := by
  intro pre
  induction pre with
  | nil =>
      intro idsPre idsPost assignedId _ hlen
      have : idsPre = [] := by
        cases idsPre with
        | nil => rfl
        | cons a l => simp at hlen
      subst this
      simp [createLoop]
  | cons x pre' ih =>
      intro idsPre idsPost assignedId hpre hlen
      have hx : x = SaveOutcome.notUnique := hpre x (by simp)
      subst hx
      cases idsPre with
      | nil => simp at hlen
      | cons i idsPre' =>
          simp only [List.cons_append, createLoop]
          exact ih idsPre' idsPost assignedId
            (fun y hy => hpre y (by simp [hy]))
            (by simpa using hlen)

/-- C1: for every authenticated create request with valid text and every
finite sequence of store outcomes consisting of uniqueness violations
followed by a first decisive save, `CreateDocument` silently retries
through the uniqueness violations; when the decisive save succeeds it
returns the success response carrying the identifier generated for that
save (and the new document enters the store), and when the decisive save
raises a validation error it returns the fixed invalid-request response
with the store unchanged. -/
theorem claim_C1_create_retries (env : Env) (u : User) (store : Store)
    (request_data : JObj) (v : JVal) (n : Nat)
    (idsPre idsPost : List String) (assignedId : String)
    (pre post : List SaveOutcome)
    (htext : jlookup request_data "text" = some v)
    (hlen : pyLen v = some n)
    (hsize : n ≤ env.maxSourceTextSize)
    (hpre : ∀ x ∈ pre, x = SaveOutcome.notUnique)
    (hids : pre.length = idsPre.length) :
    CreateDocument env (some u) (idsPre ++ assignedId :: idsPost)
        (pre ++ SaveOutcome.ok :: post) store request_data =
      some ([("success", .jbool true), ("document_id", .jstr assignedId)],
            store ++ [{ document_id := assignedId, owner := u,
                        content := env.newContent request_data }]) ∧
    CreateDocument env (some u) (idsPre ++ assignedId :: idsPost)
        (pre ++ SaveOutcome.validationError :: post) store request_data =
      some (INVALID_REQUEST_RESPONSE, store) := by
  have hnot : ¬ n > env.maxSourceTextSize := by omega
  constructor
  · have hloop := createLoop_ok post pre idsPre idsPost assignedId hpre hids
    simp [CreateDocument, htext, hlen, hnot, hloop]
  · have hloop :=
      createLoop_validation post pre idsPre idsPost assignedId hpre hids
    simp [CreateDocument, htext, hlen, hnot, hloop]

/-- C1 witness: one uniqueness collision on the first generated identifier,
then a successful save under the second; and separately an immediate
validation error. -/
theorem claim_C1_witness :
    CreateDocument envW (some userW) ["a", "b"]
        [SaveOutcome.notUnique, SaveOutcome.ok] storeW
        [("text", .jstr "hi")] =
      some ([("success", .jbool true), ("document_id", .jstr "b")],
            storeW ++ [{ document_id := "b", owner := userW,
                         content := { title := .jstr "",
                                      text := .jstr "hi",
                                      visibility := .jstr "private" } }]) ∧
    CreateDocument envW (some userW) ["a"] [SaveOutcome.validationError]
        storeW [("text", .jstr "hi")] =
      some (INVALID_REQUEST_RESPONSE, storeW) :=
  ⟨(claim_C1_create_retries envW userW storeW [("text", .jstr "hi")]
      (.jstr "hi") 2 ["a"] [] "b" [SaveOutcome.notUnique] [] rfl rfl
      (by decide) (by intro x hx; simp at hx; exact hx) rfl).1,
   (claim_C1_create_retries envW userW storeW [("text", .jstr "hi")]
      (.jstr "hi") 2 [] [] "a" [] [] rfl rfl
      (by decide) (by intro x hx; simp at hx) rfl).2⟩

theorem authLoop_goodResponse (env : Env) (session : Option User) :
    ∀ (l : List JVal) (accounts : List (JVal × JVal × JVal)) (r : JObj)
      (s : Option User),
      authAccountsLoop env session accounts l = some (r, s) →
      goodResponse r := by
  intro l
  induction l with
  | nil =>
      intro accounts r s h
      rw [authAccountsLoop] at h
      cases h
      exact goodResponse_auth_success _
  | cons a rest ih =>
      intro accounts r s h
      cases a with
      | jobj account_data =>
          rw [authAccountsLoop] at h
          split at h
          · split at h
            · cases h
              exact goodResponse_INVALID_REQUEST
            · split at h
              · cases h
              · split at h
                · cases h
                  exact goodResponse_INVALID_REQUEST
                · split at h
                  · cases h
                    exact goodResponse_invalid_token
                  · split at h
                    · cases h
                    · exact ih _ r s h
          · cases h
            exact goodResponse_INVALID_REQUEST
      | jbool b => simp [authAccountsLoop] at h
      | jstr t => simp [authAccountsLoop] at h
      | jnum m => simp [authAccountsLoop] at h
      | jarr l2 => simp [authAccountsLoop] at h

theorem authLoop_all_ok (env : Env) (session : Option User) :
    ∀ (l : List JVal) (accounts : List (JVal × JVal × JVal)),
      (∀ a ∈ l, accountWF a) →
      (∀ a ∈ l, accountOk env a = true) →
      authAccountsLoop env session accounts l =
        some ([("success", .jbool true),
               ("user_id",
                 (env.findOrCreateUser
                    (accounts ++ l.map accountTriple)).user_id)],
              some (env.findOrCreateUser
                      (accounts ++ l.map accountTriple))) := by
  intro l
  induction l with
  | nil =>
      intro accounts _ _
      simp [authAccountsLoop]
  | cons a rest ih =>
      intro accounts hwf hok
      obtain ⟨account_data, rfl, hdata, _⟩ := hwf a (by simp)
      have hoka := hok (JVal.jobj account_data) (by simp)
      obtain ⟨d, hd⟩ := Option.isSome_iff_exists.mp hdata
      rcases hp : jlookup account_data "account_provider_type" with _ | ptype
      · rw [accountOk] at hoka
        simp [hp] at hoka
      rcases hu : jlookup account_data "user_id" with _ | uid
      · rw [accountOk] at hoka
        simp [hp, hu] at hoka
      rcases ht : jlookup account_data "auth_token" with _ | tok
      · rw [accountOk] at hoka
        simp [hp, hu, ht] at hoka
      rw [accountOk] at hoka
      simp only [hp, hu, ht, Bool.and_eq_true] at hoka
      obtain ⟨⟨⟨⟨h1, h2⟩, h3⟩, h4⟩, h5⟩ := hoka
      have hk : providerKnown env ptype = some true := by
        rcases hpk : providerKnown env ptype with _ | b
        · rw [hpk] at h4
          simp at h4
        · rw [hpk] at h4
          simp at h4
          rw [h4]
      rw [authAccountsLoop]
      simp only [hp, hu, ht, h1, h2, h3, hk, h5, hd, Bool.not_true,
        Bool.false_or, Bool.or_self, Bool.or_false, if_false, ite_false]
      rw [ih (accounts ++ [(ptype, uid, d)])
            (fun y hy => hwf y (by simp [hy]))
            (fun y hy => hok y (by simp [hy]))]
      simp [accountTriple, hp, hu, hd, List.append_assoc]

theorem providerKnown_isSome_of_hashable (env : Env) (v : JVal)
    (h : hashable v = true) : ∃ b, providerKnown env v = some b := by
  cases v with
  | jbool b => exact ⟨false, rfl⟩
  | jstr s => exact ⟨env.accountProviders.contains s, rfl⟩
  | jnum n => exact ⟨false, rfl⟩
  | jarr l => simp [hashable] at h
  | jobj o => simp [hashable] at h

theorem authLoop_first_bad (env : Env) (session : Option User) :
    ∀ (l : List JVal) (accounts : List (JVal × JVal × JVal)),
      (∀ a ∈ l, accountWF a) →
      (∃ a ∈ l, accountOk env a = false) →
      ∃ r, authAccountsLoop env session accounts l = some (r, session) ∧
        jlookup r "success" = some (.jbool false) := by
  intro l
  induction l with
  | nil =>
      intro accounts _ hbad
      simp at hbad
  | cons a rest ih =>
      intro accounts hwf hbad
      obtain ⟨account_data, rfl, hdata, hhash⟩ := hwf a (by simp)
      by_cases hoka : accountOk env (JVal.jobj account_data) = true
      · have hbad' : ∃ b ∈ rest, accountOk env b = false := by
          obtain ⟨b, hb, hbf⟩ := hbad
          rcases List.mem_cons.mp hb with rfl | hbr
          · rw [hbf] at hoka
            simp at hoka
          · exact ⟨b, hbr, hbf⟩
        obtain ⟨d, hd⟩ := Option.isSome_iff_exists.mp hdata
        rcases hp : jlookup account_data "account_provider_type" with _ | ptype
        · rw [accountOk] at hoka
          simp [hp] at hoka
        rcases hu : jlookup account_data "user_id" with _ | uid
        · rw [accountOk] at hoka
          simp [hp, hu] at hoka
        rcases ht : jlookup account_data "auth_token" with _ | tok
        · rw [accountOk] at hoka
          simp [hp, hu, ht] at hoka
        rw [accountOk] at hoka
        simp only [hp, hu, ht, Bool.and_eq_true] at hoka
        obtain ⟨⟨⟨⟨h1, h2⟩, h3⟩, h4⟩, h5⟩ := hoka
        have hk : providerKnown env ptype = some true := by
          rcases hpk : providerKnown env ptype with _ | b
          · rw [hpk] at h4
            simp at h4
          · rw [hpk] at h4
            simp at h4
            rw [h4]
        obtain ⟨r, hr, hrs⟩ := ih (accounts ++ [(ptype, uid, d)])
          (fun y hy => hwf y (by simp [hy])) hbad'
        refine ⟨r, ?_, hrs⟩
        rw [authAccountsLoop]
        simp only [hp, hu, ht, h1, h2, h3, hk, h5, hd, Bool.not_true,
          Bool.false_or, Bool.or_self, Bool.or_false, if_false, ite_false]
        exact hr
      · rcases hp : jlookup account_data "account_provider_type" with _ | ptype
        · refine ⟨INVALID_REQUEST_RESPONSE, ?_, rfl⟩
          rw [authAccountsLoop]
          simp [hp]
        rcases hu : jlookup account_data "user_id" with _ | uid
        · refine ⟨INVALID_REQUEST_RESPONSE, ?_, rfl⟩
          rw [authAccountsLoop]
          simp [hp, hu]
        rcases ht : jlookup account_data "auth_token" with _ | tok
        · refine ⟨INVALID_REQUEST_RESPONSE, ?_, rfl⟩
          rw [authAccountsLoop]
          simp [hp, hu, ht]
        cases hg1 : truthy ptype with
        | false =>
            refine ⟨INVALID_REQUEST_RESPONSE, ?_, rfl⟩
            rw [authAccountsLoop]
            simp [hp, hu, ht, hg1]
        | true =>
        cases hg2 : truthy uid with
        | false =>
            refine ⟨INVALID_REQUEST_RESPONSE, ?_, rfl⟩
            rw [authAccountsLoop]
            simp [hp, hu, ht, hg1, hg2]
        | true =>
        cases hg3 : truthy tok with
        | false =>
            refine ⟨INVALID_REQUEST_RESPONSE, ?_, rfl⟩
            rw [authAccountsLoop]
            simp [hp, hu, ht, hg1, hg2, hg3]
        | true =>
        have hhb : hashable ptype = true :=
          hhash ptype uid tok hp hu ht hg1 hg2 hg3
        obtain ⟨b, hg4⟩ := providerKnown_isSome_of_hashable env ptype hhb
        cases b with
        | false =>
            refine ⟨INVALID_REQUEST_RESPONSE, ?_, rfl⟩
            rw [authAccountsLoop]
            simp [hp, hu, ht, hg1, hg2, hg3, hg4]
        | true =>
        cases htok : env.isTokenValid ptype uid tok with
        | false =>
            refine ⟨[("success", .jbool false),
                     ("error_message", .jstr "Invalid token")], ?_, rfl⟩
            rw [authAccountsLoop]
            simp [hp, hu, ht, hg1, hg2, hg3, hg4, htok]
        | true =>
            exfalso
            apply hoka
            rw [accountOk]
            simp [hp, hu, ht, hg1, hg2, hg3, hg4, htok]

/-- C4: the Auth handler is all-or-nothing. For every request whose
`accounts` entry is a nonempty list of well-formed account assertions
(`accountWF`: JSON objects carrying a `data` field whose provider type is
hashable when the three truthy fields force the dict membership test to
run; outside that set the code raises an uncaught exception instead of
returning any response): if any assertion is invalid (bad shape, unknown
provider, or a token failing provider verification) the handler returns a
failure response and the session is unchanged, so no user is linked,
created, or logged in; only when every assertion is valid does it link or
create the user via `FindOrCreateUser`, log that user in, and return
success with the site user ID. -/
theorem claim_C4_auth_all_or_nothing (env : Env) (session : Option User)
    (request_data : JObj) (l : List JVal)
    (hacc : jlookup request_data "accounts" = some (.jarr l))
    (hne : l ≠ [])
    (hwf : ∀ a ∈ l, accountWF a) :
    ((∃ a ∈ l, accountOk env a = false) →
       ∃ r, Auth env session request_data = some (r, session) ∧
         jlookup r "success" = some (.jbool false)) ∧
    ((∀ a ∈ l, accountOk env a = true) →
       Auth env session request_data =
         some ([("success", .jbool true),
                ("user_id",
                  (env.findOrCreateUser (l.map accountTriple)).user_id)],
               some (env.findOrCreateUser (l.map accountTriple)))) := by
  have hemp : l.isEmpty = false := by
    cases l with
    | nil => exact absurd rfl hne
    | cons a r => rfl
  constructor
  · intro hbad
    obtain ⟨r, hr, hrs⟩ := authLoop_first_bad env session l [] hwf hbad
    refine ⟨r, ?_, hrs⟩
    simp only [Auth, hacc, hemp, Bool.false_eq_true, if_false, ite_false]
    exact hr
  · intro hok
    simp only [Auth, hacc, hemp, Bool.false_eq_true, if_false, ite_false]
    rw [authLoop_all_ok env session l [] hwf hok]
    simp

/-- C4 witness: a fully valid single-account request logs the user in and
returns its site user ID, while a request containing a malformed account
assertion fails with the session unchanged. -/
theorem claim_C4_witness :
    Auth envW none [("accounts", .jarr [acctW])] =
      some ([("success", .jbool true),
             ("user_id",
               (envW.findOrCreateUser ([acctW].map accountTriple)).user_id)],
            some (envW.findOrCreateUser ([acctW].map accountTriple))) ∧
    (∃ r, Auth envW none
            [("accounts", .jarr [JVal.jobj [("data", .jobj [])]])] =
          some (r, none) ∧
        jlookup r "success" = some (.jbool false)) :=
  ⟨(claim_C4_auth_all_or_nothing envW none
      [("accounts", .jarr [acctW])] [acctW] rfl (by simp)
      (by intro a ha
          simp at ha
          subst ha
          refine ⟨_, rfl, rfl, ?_⟩
          intro ptype uid tok hp hu ht h1 h2 h3
          cases hp
          rfl)).2
     (by intro a ha
         simp at ha
         subst ha
         decide),
   (claim_C4_auth_all_or_nothing envW none
      [("accounts", .jarr [JVal.jobj [("data", .jobj [])]])]
      [JVal.jobj [("data", .jobj [])]] rfl (by simp)
      (by intro a ha
          simp at ha
          subst ha
          refine ⟨_, rfl, rfl, ?_⟩
          intro ptype uid tok hp
          cases hp)).1
     ⟨JVal.jobj [("data", .jobj [])], by simp, by decide⟩⟩

/-- C8: every response produced by the JSON API handlers (AsciiDocToHtml,
Auth, Logout, CreateDocument, GetDocument, SaveDocument, DeleteDocument)
is a JSON object (the `JObj` result type) containing a boolean `success`
field, and every failure response additionally contains a string
`error_message`; the three error kinds are produced as such ordinary
payloads (`some` results of the handlers), not as transport-level errors. -/
theorem claim_C8_response_shape (env : Env) (session : Option User)
    (ids : List String) (outcomes : List SaveOutcome) (store : Store)
    (request_data : JObj) (document_id : String) :
    (∀ r, AsciiDocToHtml env request_data = some r → goodResponse r) ∧
    (∀ r s, Auth env session request_data = some (r, s) → goodResponse r) ∧
    goodResponse (Logout session).1 ∧
    (∀ r st, CreateDocument env session ids outcomes store request_data =
        some (r, st) → goodResponse r) ∧
    goodResponse (GetDocument env session store document_id) ∧
    (∀ r st, SaveDocument env session store document_id request_data =
        some (r, st) → goodResponse r) ∧
    goodResponse (DeleteDocument env session store document_id).1 := by
  refine ⟨?_, ?_, ?_, ?_, ?_, ?_, ?_⟩
  · intro r h
    unfold AsciiDocToHtml at h
    split at h
    · cases h
      exact goodResponse_INVALID_REQUEST
    · split at h
      · cases h
      · split at h
        · cases h
          exact goodResponse_INVALID_REQUEST
        · split at h
          · cases h
            exact goodResponse_render _ _ _
  · intro r s h
    unfold Auth at h
    split at h
    · split at h
      · cases h
        exact goodResponse_INVALID_REQUEST
      · exact authLoop_goodResponse env session _ [] r s h
    · cases h
      exact goodResponse_INVALID_REQUEST
    · cases h
      exact goodResponse_INVALID_REQUEST
  · cases session with
    | none => exact goodResponse_NOT_AUTHENTICATED
    | some u => exact goodResponse_SUCCESS
  · intro r st h
    unfold CreateDocument at h
    split at h
    · cases h
      exact goodResponse_NOT_AUTHENTICATED
    · split at h
      · cases h
        exact goodResponse_INVALID_REQUEST
      · split at h
        · cases h
        · split at h
          · cases h
            exact goodResponse_INVALID_REQUEST
          · split at h
            · cases h
              exact goodResponse_create_success _
            · cases h
              exact goodResponse_INVALID_REQUEST
            · cases h
  · unfold GetDocument
    split
    · exact goodResponse_NOT_AUTHENTICATED
    · split
      · exact goodResponse_INVALID_DOCUMENT_ID
      · split
        · exact goodResponse_NOT_AUTHENTICATED
        · exact goodResponse_get_success _
  · intro r st h
    unfold SaveDocument at h
    split at h
    · cases h
      exact goodResponse_NOT_AUTHENTICATED
    · split at h
      · cases h
        exact goodResponse_INVALID_REQUEST
      · split at h
        · cases h
        · split at h
          · cases h
            exact goodResponse_INVALID_REQUEST
          · split at h
            · cases h
              exact goodResponse_INVALID_DOCUMENT_ID
            · split at h
              · cases h
                exact goodResponse_NOT_AUTHENTICATED
              · simp only [] at h
                split at h
                · cases h
                  exact goodResponse_SUCCESS
                · cases h
                  exact goodResponse_INVALID_REQUEST
  · unfold DeleteDocument
    split
    · exact goodResponse_NOT_AUTHENTICATED
    · split
      · exact goodResponse_INVALID_DOCUMENT_ID
      · split
        · exact goodResponse_NOT_AUTHENTICATED
        · exact goodResponse_SUCCESS

/-- C8 witness: each handler conjunct applied at a concrete request. -/
theorem claim_C8_witness :
    goodResponse INVALID_REQUEST_RESPONSE ∧
    goodResponse INVALID_REQUEST_RESPONSE ∧
    goodResponse (Logout none).1 ∧
    goodResponse NOT_AUTHENTICATED_RESPONSE ∧
    goodResponse (GetDocument envW none storeW "d1") ∧
    goodResponse NOT_AUTHENTICATED_RESPONSE ∧
    goodResponse (DeleteDocument envW none storeW "d1").1 :=
  ⟨(claim_C8_response_shape envW none [] [] storeW [] "d1").1
     INVALID_REQUEST_RESPONSE rfl,
   (claim_C8_response_shape envW none [] [] storeW [] "d1").2.1
     INVALID_REQUEST_RESPONSE none rfl,
   (claim_C8_response_shape envW none [] [] storeW [] "d1").2.2.1,
   (claim_C8_response_shape envW none [] [] storeW [] "d1").2.2.2.1
     NOT_AUTHENTICATED_RESPONSE storeW rfl,
   (claim_C8_response_shape envW none [] [] storeW [] "d1").2.2.2.2.1,
   (claim_C8_response_shape envW none [] [] storeW [] "d1").2.2.2.2.2.1
     NOT_AUTHENTICATED_RESPONSE storeW rfl,
   (claim_C8_response_shape envW none [] [] storeW [] "d1").2.2.2.2.2.2⟩
